import Mathlib

/-!
Verification of the Spacedrop connection-authorization subsystem
(`modules/auth_module/auth_module.c`).

The C module is embedded shallowly:
  - C strings become `List Char` (every string handled here is NUL-free);
  - the byte-scanning helpers (`strstr`, `strchr`, `strtoll`, `strcasecmp`,
    the ad hoc JSON field extractors) become structurally recursive Lean
    functions with the same short-circuit behaviour;
  - the external identity oracle (the `tailscale` CLI) becomes a record of
    query functions, with invocation of each query tracked explicitly;
  - the mutable globals `g_mode`, `g_personal_id`, `g_cfg_json` become an
    explicit `AuthState` threaded through the functions that read or set them;
  - file-system and environment effects of `config_load_or_create` become an
    explicit `Env` record describing the outcome of each effectful step.
-/

namespace Spacedrop

/-! ## C character-class helpers (ASCII, C locale) -/

/-- C `tolower` in the C locale: ASCII upper case maps down, all else fixed. -/
def lowerChar (c : Char) : Char :=
  if 'A' ≤ c ∧ c ≤ 'Z' then Char.ofNat (c.toNat + 32) else c

/-- C `isspace` in the C locale. -/
def isSpaceC (c : Char) : Bool :=
  c = ' ' || c = '\t' || c = '\n' || c = '\x0b' || c = '\x0c' || c = '\r'

/-- C `strcasecmp(a, b) == 0`: equal length and equal characters up to case. -/
def strcaseEq : List Char → List Char → Bool
  | [], [] => true
  | a :: as, b :: bs => decide (lowerChar a = lowerChar b) && strcaseEq as bs
  | _, _ => false

/-! ## C string-scanning primitives over `List Char` -/

/-- Whether `pat` is a prefix of `s` (the comparison `strncmp`-style scan
underlying `strstr`). -/
def listPrefixEq : List Char → List Char → Bool
  | [], _ => true
  | _ :: _, [] => false
  | a :: as, b :: bs => decide (a = b) && listPrefixEq as bs

/-- Comparing `pat` against `s` hits a definite mismatch strictly inside `s`
(used to certify that `strstr` skips a region without matching). -/
def misMatches : List Char → List Char → Bool
  | [], _ => false
  | _ :: _, [] => false
  | a :: as, b :: bs => decide (a ≠ b) || misMatches as bs

/-- C `strstr`: the suffix of `s` starting at the first occurrence of `pat`,
or `none` when `pat` does not occur. -/
def strstr (s pat : List Char) : Option (List Char) :=
  if listPrefixEq pat s then some s
  else
    match s with
    | [] => none
    | _ :: t => strstr t pat

/-- C `strchr`: the suffix of `s` starting at the first occurrence of the
character `c`, or `none`. -/
def strchr (s : List Char) (c : Char) : Option (List Char) :=
  match s with
  | [] => none
  | a :: t => if a = c then some (a :: t) else strchr t c

/-- Value of a digit string, most significant first (`strtoll`'s accumulator). -/
def natOfDigits (ds : List Char) : Nat :=
  ds.foldl (fun a c => a * 10 + (c.toNat - 48)) 0

/-- The sign-and-digits step of C `strtoll(s, _, 10)`: one optional sign,
then the maximal run of decimal digits (an empty run yields 0). -/
def strtollSigned : List Char → Int
  | [] => 0
  | c :: t =>
    if c = '-' then -(natOfDigits (t.takeWhile Char.isDigit) : Int)
    else if c = '+' then (natOfDigits (t.takeWhile Char.isDigit) : Int)
    else (natOfDigits ((c :: t).takeWhile Char.isDigit) : Int)

/-- C `strtoll(s, _, 10)`: skip leading whitespace, then sign and digits. -/
def strtollC (s : List Char) : Int :=
  strtollSigned (s.dropWhile isSpaceC)

/-! ## The module's targeted JSON field extractors -/

/-- `json_find_str_value`: locate the quoted key, skip to the first `:`, skip
colons and whitespace, then read a double-quoted value. -/
def json_find_str_value (json key : List Char) : Option (List Char) :=
  match strstr json key with
  | none => none
  | some k0 =>
    match strchr k0 ':' with
    | none => none
    | some k1 =>
      match k1.dropWhile (fun c => c = ':' || isSpaceC c) with
      | [] => none
      | c :: rest =>
        if c = '\"' then
          match strchr rest '\"' with
          | none => none
          | some _ => some (rest.takeWhile (fun x => decide (x ≠ '\"')))
        else none

/-- `json_find_ll_value`: locate the quoted key, skip to the first `:`, skip
colons and whitespace, then `strtoll` whatever follows. -/
def json_find_ll_value (json key : List Char) : Int :=
  match strstr json key with
  | none => 0
  | some k0 =>
    match strchr k0 ':' with
    | none => 0
    | some k1 => strtollC (k1.dropWhile (fun c => c = ':' || isSpaceC c))

/-- Head-is-a-digit test used by the array scanner's `-` lookahead. -/
def headIsDigit : List Char → Bool
  | [] => false
  | c :: _ => c.isDigit

/-- The scanning loop of `json_contains_ll_in_array`, fuelled for structural
recursion: every iteration of the C loop advances its pointer by at least one
character, so running the loop with `s.length` as fuel (as `json_scan_array`
below does) is exactly the unbounded C loop over the region.  The region as
passed here still carries the leading `[`, which the loop skips as a
non-digit, exactly as the C loop runs its pointer from `[` up to `]`. -/
def json_scan_fuel : Nat → List Char → Int → Bool
  | 0, _, _ => false
  | _ + 1, [], _ => false
  | fuel + 1, c :: rest, needle =>
    if c.isDigit then
      decide ((natOfDigits ((c :: rest).takeWhile Char.isDigit) : Int) = needle)
        || json_scan_fuel fuel (rest.dropWhile Char.isDigit) needle
    else if c = '-' && headIsDigit rest then
      decide ((-(natOfDigits (rest.takeWhile Char.isDigit) : Int)) = needle)
        || json_scan_fuel fuel (rest.dropWhile Char.isDigit) needle
    else json_scan_fuel fuel rest needle

/-- The scan over a region, with just enough fuel (see `json_scan_fuel`). -/
def json_scan_array (s : List Char) (needle : Int) : Bool :=
  json_scan_fuel s.length s needle

/-- `json_contains_ll_in_array`: locate the quoted key, the `[` after it and
the `]` after that, then scan every decimal integer in between for `needle`. -/
def json_contains_ll_in_array (json key : List Char) (needle : Int) : Bool :=
  match strstr json key with
  | none => false
  | some p0 =>
    match strchr p0 '[' with
    | none => false
    | some p1 =>
      match strchr p1 ']' with
      | none => false
      | some _ => json_scan_array (p1.takeWhile (fun c => decide (c ≠ ']'))) needle

/-! ## The external identity oracle and the identity resolver

`tailscale_user_id_for_ip` and `tailscale_user_id_from_status_by_ip` each run
one external command and scan its output for a user id, returning 0 on any
failure (command unrunnable, empty output, field absent).  The oracle is
modelled as the two query functions `ip ↦ returned id` (0 covers every failure
of that query), and each model function additionally reports whether its
external command was actually invoked: the C functions return 0 *without*
running anything when handed a null/empty address. -/

structure Oracle where
  whois : List Char → Int
  statusByIp : List Char → Int

/-- Outcome of one resolution attempt: the user id (0 = unknown) and whether
each of the two oracle queries was invoked. -/
structure Resolution where
  uid : Int
  whoisInvoked : Bool
  statusInvoked : Bool
deriving DecidableEq

/-- `tailscale_user_id_for_ip`: empty address short-circuits to 0 with no
command run; otherwise the whois query runs and yields its id. -/
def tailscale_user_id_for_ip (o : Oracle) (ip : List Char) : Int × Bool :=
  if ip = [] then (0, false) else (o.whois ip, true)

/-- `tailscale_user_id_from_status_by_ip`: empty address short-circuits to 0
with no command run; otherwise the status query runs and yields its id. -/
def tailscale_user_id_from_status_by_ip (o : Oracle) (ip : List Char) : Int × Bool :=
  if ip = [] then (0, false) else (o.statusByIp ip, true)

/-- The whois-then-status fallback chain
(`uid = tailscale_user_id_for_ip(ip); if (!uid) uid = ..._from_status_by_ip(ip);`). -/
def resolve_remote (o : Oracle) (ip : List Char) : Resolution :=
  let w := tailscale_user_id_for_ip o ip
  if w.1 = 0 then
    let s := tailscale_user_id_from_status_by_ip o ip
    ⟨s.1, w.2, s.2⟩
  else ⟨w.1, w.2, false⟩

/-- `is_loopback_ip_str`: `strncmp(ip, "127.", 4) == 0` or `ip == "::1"`. -/
def is_loopback_ip_str (ip : List Char) : Bool :=
  decide (ip.take 4 = "127.".toList) || decide (ip = "::1".toList)

/-- The identity-resolution step of `auth_is_allowed_conn`'s non-EVERYONE
path (lines 373–380): a loopback caller is taken to be the machine owner
(`uid = g_personal_id`) with no oracle command run; anyone else goes through
the whois/status chain. -/
def resolve_identity (personalId : Int) (o : Oracle) (ip : List Char) : Resolution :=
  if is_loopback_ip_str ip then ⟨personalId, false, false⟩
  else resolve_remote o ip

/-! ## Cached policy state and the decision engine -/

/-- The four recognized mode literals. -/
def everyoneL : List Char := "EVERYONE".toList
def offL : List Char := "OFF".toList
def personalL : List Char := "PERSONAL".toList
def contactsOnlyL : List Char := "CONTACTS_ONLY".toList

/-- The quoted JSON keys the module scans for. -/
def modeKey : List Char := "\"mode\"".toList
def pidKey : List Char := "\"personal_user_id\"".toList
def contactsKey : List Char := "\"contacts_user_ids\"".toList

/-- The module's cached globals: `g_mode` (a 24-byte buffer, so at most 23
characters), `g_personal_id`, and `g_cfg_json` (`none` = NULL). -/
structure AuthState where
  mode : List Char
  personalId : Int
  cfgJson : Option (List Char)

/-- `is_allowed_user_id`: the mode table.  When the CONTACTS_ONLY branch
reaches the contacts scan with `g_cfg_json == NULL` the C code would pass NULL
to `strstr` (undefined behaviour); the model returns `false` there, and the
initialization invariant proved below shows that state is unreachable after
`auth_init`. -/
def is_allowed_user_id (st : AuthState) (uid : Int) : Bool :=
  if strcaseEq st.mode everyoneL then true
  else if strcaseEq st.mode offL then false
  else if strcaseEq st.mode personalL then
    decide (uid ≠ 0) && decide (st.personalId ≠ 0) && decide (uid = st.personalId)
  else if strcaseEq st.mode contactsOnlyL then
    if uid = 0 then false
    else if st.personalId ≠ 0 ∧ uid = st.personalId then true
    else
      match st.cfgJson with
      | none => false
      | some doc => json_contains_ll_in_array doc contactsKey uid
  else false

/-- `remote_ip_to_string`: `none` models a NULL connection / request-info or
an empty `remote_addr`; otherwise the address is copied into a 64-byte buffer
(truncating to 63 characters) and any `%` scope suffix is cut off. -/
def remote_ip_to_string (remoteAddr : Option (List Char)) : Option (List Char) :=
  match remoteAddr with
  | none => none
  | some a =>
    if a = [] then none
    else some ((a.take 63).takeWhile (fun c => decide (c ≠ '%')))

/-- Result of `auth_is_allowed_conn`: the verdict, the value stored through
`out_user_id`, and which oracle queries ran during the call. -/
structure AuthVerdict where
  allowed : Bool
  outUserId : Int
  whoisInvoked : Bool
  statusInvoked : Bool
deriving DecidableEq

/-- `auth_is_allowed_conn`: EVERYONE allows unconditionally, resolving
best-effort through the oracle chain (no loopback shortcut) purely for the
reported id; every other mode resolves the caller (loopback → owner id,
otherwise the oracle chain), denies on an unresolvable address or a zero id,
and otherwise consults the mode table. -/
def auth_is_allowed_conn (st : AuthState) (o : Oracle) (remoteAddr : Option (List Char)) :
    AuthVerdict :=
  if strcaseEq st.mode everyoneL then
    match remote_ip_to_string remoteAddr with
    | some ip =>
      let r := resolve_remote o ip
      ⟨true, r.uid, r.whoisInvoked, r.statusInvoked⟩
    | none => ⟨true, 0, false, false⟩
  else
    match remote_ip_to_string remoteAddr with
    | none => ⟨false, 0, false, false⟩
    | some ip =>
      let r := resolve_identity st.personalId o ip
      if r.uid = 0 then ⟨false, r.uid, r.whoisInvoked, r.statusInvoked⟩
      else ⟨is_allowed_user_id st r.uid, r.uid, r.whoisInvoked, r.statusInvoked⟩

/-! ## Policy store: load-or-create

The effectful steps of `config_load_or_create` are abstracted into an `Env`:
whether a config path could be determined, the content of an existing config
file (`none` = missing/unreadable), the self-address lookup, the oracle for
the self-identity lookup, and whether writing then re-reading the fresh
config succeeds.  The fresh config text is rendered exactly as the C
`snprintf` format string builds it. -/

structure Env where
  pathOk : Bool
  existingFile : Option (List Char)
  selfIp : Option (List Char)
  oracle : Oracle
  writeOk : Bool
  rereadOk : Bool

/-- Decimal digit character (the digits `snprintf` emits for `%lld`). -/
def digitChar (d : Nat) : Char :=
  if d = 0 then '0' else if d = 1 then '1' else if d = 2 then '2'
  else if d = 3 then '3' else if d = 4 then '4' else if d = 5 then '5'
  else if d = 6 then '6' else if d = 7 then '7' else if d = 8 then '8' else '9'

/-- Decimal rendering of a natural number, most significant digit first. -/
def natToDec (n : Nat) : List Char :=
  if _h : n < 10 then [digitChar n]
  else natToDec (n / 10) ++ [digitChar (n % 10)]
termination_by n
decreasing_by exact Nat.div_lt_self (by omega) (by omega)

/-- `%lld` rendering of an integer. -/
def intToDec (n : Int) : List Char :=
  if n < 0 then '-' :: natToDec n.natAbs else natToDec n.toNat

def cfgSeg1 : List Char := "\x7b\n  ".toList
def cfgSeg2 : List Char := ": \"EVERYONE\",\n  ".toList
def cfgSeg3 : List Char := ": ".toList
def cfgSeg4 : List Char := ",\n  ".toList
def cfgSeg5 : List Char := ": []\n\x7d\n".toList

/-- The default config document `config_load_or_create` writes:
`{\n  "mode": "EVERYONE",\n  "personal_user_id": %lld,\n  "contacts_user_ids": []\n}\n`
with `%lld` instantiated to `uid` (the 256-byte buffer cannot truncate it for
any 64-bit `uid`: the fixed text plus at most 20 digit characters fit). -/
def renderConfig (uid : Int) : List Char :=
  cfgSeg1 ++ modeKey ++ cfgSeg2 ++ pidKey ++ cfgSeg3 ++ intToDec uid
    ++ cfgSeg4 ++ contactsKey ++ cfgSeg5

/-- The owner self-lookup performed when creating a fresh config:
`ip = tailscale_self_ipv4(); uid = ip ? whois(ip) : 0; if (!uid && ip) uid = status(ip);`. -/
def self_lookup_uid (env : Env) : Int :=
  match env.selfIp with
  | none => 0
  | some ip => (resolve_remote env.oracle ip).uid

/-- `config_load_or_create` over the abstract environment.  Returns the C
function's success flag together with the updated globals. -/
def config_load_or_create (env : Env) (st : AuthState) : Bool × AuthState :=
  if env.pathOk = false then (false, st)
  else
    match env.existingFile with
    | some s =>
      let mode' :=
        match json_find_str_value s modeKey with
        | some m => m.take 23
        | none => st.mode
      (true, AuthState.mk mode' (json_find_ll_value s pidKey) (some s))
    | none =>
      let uid := self_lookup_uid env
      if env.writeOk = false then (false, AuthState.mk st.mode st.personalId none)
      else if env.rereadOk then
        (true, AuthState.mk everyoneL uid (some (renderConfig uid)))
      else
        (false, AuthState.mk everyoneL uid none)

/-- `auth_init`: run load-or-create; on failure force the in-memory default
`mode = EVERYONE, personal id = 0`; always report success (returns 1). -/
def auth_init (env : Env) (st : AuthState) : Bool × AuthState :=
  let r := config_load_or_create env st
  if r.1 then (true, r.2)
  else (true, AuthState.mk everyoneL 0 r.2.cfgJson)

/-- The globals' initial values: `g_mode = "EVERYONE"`, `g_personal_id = 0`,
`g_cfg_json = NULL`. -/
def initState : AuthState := AuthState.mk everyoneL 0 none

/-! ## Helper lemmas -/

/-- Case-insensitive equality forces equal lengths (used to separate the mode
literals from each other). -/
theorem strcaseEq_length : ∀ {a b : List Char}, strcaseEq a b = true → a.length = b.length
  | [], [], _ => rfl
  | a :: as, b :: bs, h => by
    simp only [strcaseEq, Bool.and_eq_true, decide_eq_true_eq] at h
    simpa using strcaseEq_length h.2
  | [], _ :: _, h => by simp [strcaseEq] at h
  | _ :: _, [], h => by simp [strcaseEq] at h

/-- A mode that matches `OFF` case-insensitively matches none of the other
three recognized literals (their lengths differ). -/
theorem strcaseEq_off_excludes {m : List Char} (h : strcaseEq m offL = true) :
    strcaseEq m everyoneL = false ∧ strcaseEq m personalL = false ∧
      strcaseEq m contactsOnlyL = false := by
  have hlen : m.length = 3 := strcaseEq_length h
  refine ⟨?_, ?_, ?_⟩ <;> {
    by_contra hc
    simp only [Bool.not_eq_false] at hc
    have h2 := strcaseEq_length hc
    rw [hlen] at h2
    exact absurd h2 (by decide)
  }

/-- Under OFF or an unrecognized mode, the decision table denies every id. -/
theorem is_allowed_user_id_denies (st : AuthState)
    (h : strcaseEq st.mode offL = true ∨
      (strcaseEq st.mode everyoneL = false ∧
       strcaseEq st.mode offL = false ∧
       strcaseEq st.mode personalL = false ∧
       strcaseEq st.mode contactsOnlyL = false)) :
    ∀ uid, is_allowed_user_id st uid = false := by
  intro uid
  rcases h with hoff | ⟨h1, h2, h3, h4⟩
  · have hx := strcaseEq_off_excludes hoff
    simp [is_allowed_user_id, hoff, hx.1]
  · simp [is_allowed_user_id, h1, h2, h3, h4]

/-! ### Decimal rendering and `strtoll` round-trip -/

theorem digitChar_isDigit (d : Nat) : (digitChar d).isDigit = true := by
  unfold digitChar
  split_ifs <;> decide

theorem digitChar_toNat {d : Nat} (h : d < 10) : (digitChar d).toNat = 48 + d := by
  interval_cases d <;> decide

theorem natToDec_ne_nil (n : Nat) : natToDec n ≠ [] := by
  induction n using natToDec.induct with
  | case1 n h =>
    rw [natToDec, dif_pos h]
    simp
  | case2 n h ih =>
    rw [natToDec, dif_neg h]
    simp

theorem natToDec_digits (n : Nat) : ∀ c ∈ natToDec n, c.isDigit = true := by
  induction n using natToDec.induct with
  | case1 n h =>
    intro c hc
    rw [natToDec, dif_pos h] at hc
    simp at hc
    subst hc
    exact digitChar_isDigit _
  | case2 n h ih =>
    intro c hc
    rw [natToDec, dif_neg h] at hc
    rcases List.mem_append.1 hc with h1 | h2
    · exact ih c h1
    · simp at h2
      subst h2
      exact digitChar_isDigit _

theorem natOfDigits_append_digit (l : List Char) (c : Char) :
    natOfDigits (l ++ [c]) = natOfDigits l * 10 + (c.toNat - 48) := by
  unfold natOfDigits
  rw [List.foldl_append]
  rfl

theorem natOfDigits_natToDec (n : Nat) : natOfDigits (natToDec n) = n := by
  induction n using natToDec.induct with
  | case1 n h =>
    rw [natToDec, dif_pos h]
    have hd : (digitChar n).toNat = 48 + n := digitChar_toNat h
    simp [natOfDigits, hd]
  | case2 n h ih =>
    rw [natToDec, dif_neg h, natOfDigits_append_digit, ih,
      digitChar_toNat (Nat.mod_lt _ (by omega))]
    omega

theorem ne_of_isDigit {c : Char} (h : c.isDigit = true) (d : Char)
    (hd : d.isDigit = false) : c ≠ d := by
  intro he
  subst he
  rw [h] at hd
  cases hd

theorem isSpaceC_of_isDigit {c : Char} (h : c.isDigit = true) : isSpaceC c = false := by
  cases hb : isSpaceC c with
  | false => rfl
  | true =>
    exfalso
    unfold isSpaceC at hb
    simp only [Bool.or_eq_true, decide_eq_true_eq] at hb
    rcases hb with ((((h1 | h1) | h1) | h1) | h1) | h1 <;> (try subst h1) <;>
      exact absurd h (by decide)

theorem twAppend {p : Char → Bool} : ∀ {l : List Char} (r : List Char),
    (∀ c ∈ l, p c = true) → (l ++ r).takeWhile p = l ++ r.takeWhile p
  | [], r, _ => by simp
  | c :: t, r, h => by
    have hc := h c (by simp)
    simp only [List.cons_append, List.takeWhile_cons, hc, if_true]
    rw [twAppend r (fun x hx => h x (List.mem_cons_of_mem _ hx))]

theorem twStop {r : List Char} (hr : headIsDigit r = false) :
    r.takeWhile Char.isDigit = [] := by
  cases r with
  | nil => rfl
  | cons c t => simp [List.takeWhile_cons, show c.isDigit = false from hr]

theorem strtollSigned_neg (t : List Char) :
    strtollSigned ('-' :: t) = -(natOfDigits (t.takeWhile Char.isDigit) : Int) := by
  simp [strtollSigned]

theorem strtollSigned_digit {c : Char} (t : List Char) (h : c.isDigit = true) :
    strtollSigned (c :: t) = (natOfDigits ((c :: t).takeWhile Char.isDigit) : Int) := by
  rw [strtollSigned]
  rw [if_neg (ne_of_isDigit h '-' (by decide)), if_neg (ne_of_isDigit h '+' (by decide))]

theorem strtollC_intToDec (z : Int) (r : List Char) (hr : headIsDigit r = false) :
    strtollC (intToDec z ++ r) = z := by
  rcases lt_or_ge z 0 with hz | hz
  · rw [intToDec, if_pos hz, List.cons_append]
    unfold strtollC
    rw [List.dropWhile_cons, show isSpaceC '-' = false from rfl]
    simp only [Bool.false_eq_true, if_false]
    rw [strtollSigned_neg, twAppend r (natToDec_digits _), twStop hr, List.append_nil,
      natOfDigits_natToDec]
    omega
  · obtain ⟨c, cs, hcc⟩ : ∃ c cs, natToDec z.toNat = c :: cs := by
      cases h : natToDec z.toNat with
      | nil => exact absurd h (natToDec_ne_nil _)
      | cons a t => exact ⟨a, t, rfl⟩
    have hcd : c.isDigit = true := natToDec_digits _ c (by rw [hcc]; simp)
    have hid : intToDec z = c :: cs := by rw [intToDec, if_neg (by omega), hcc]
    rw [hid, List.cons_append]
    unfold strtollC
    rw [List.dropWhile_cons, isSpaceC_of_isDigit hcd]
    simp only [Bool.false_eq_true, if_false]
    rw [strtollSigned_digit _ hcd, ← List.cons_append, ← hid]
    rw [intToDec, if_neg (by omega), twAppend r (natToDec_digits _), twStop hr,
      List.append_nil, natOfDigits_natToDec]
    omega



theorem listPrefixEq_false_of_mis : ∀ {pat s : List Char},
    misMatches pat s = true → ∀ r, listPrefixEq pat (s ++ r) = false
  | [], s, h, r => by simp [misMatches] at h
  | a :: as, [], h, r => by simp [misMatches] at h
  | a :: as, b :: bs, h, r => by
    simp only [misMatches, Bool.or_eq_true, decide_eq_true_eq] at h
    rcases h with h | h
    · simp [listPrefixEq, h]
    · simp [listPrefixEq, listPrefixEq_false_of_mis h r]

theorem strstr_cons_of_not {pat : List Char} {c : Char} {t : List Char}
    (h : listPrefixEq pat (c :: t) = false) : strstr (c :: t) pat = strstr t pat := by
  rw [strstr.eq_def, h]
  simp

theorem strstr_here {s pat : List Char} (h : listPrefixEq pat s = true) :
    strstr s pat = some s := by
  rw [strstr.eq_def, h]
  simp

theorem listPrefixEq_self_append : ∀ (l r : List Char), listPrefixEq l (l ++ r) = true
  | [], _ => rfl
  | a :: as, r => by simp [listPrefixEq, listPrefixEq_self_append as r]

theorem strstr_skip_mis : ∀ (l r pat : List Char),
    (∀ k, k < l.length → misMatches pat (l.drop k) = true) →
    strstr (l ++ r) pat = strstr r pat
  | [], r, pat, _ => by simp
  | c :: t, r, pat, h => by
    have h0 := h 0 (by simp)
    rw [List.drop_zero] at h0
    rw [List.cons_append, strstr_cons_of_not (by simpa using listPrefixEq_false_of_mis h0 r)]
    exact strstr_skip_mis t r pat (fun k hk => by simpa using h (k + 1) (by simpa using hk))

theorem strstr_skip_head : ∀ (l r pat : List Char), pat ≠ [] →
    (∀ c ∈ l, c ≠ pat.headD ' ') → strstr (l ++ r) pat = strstr r pat
  | [], r, pat, _, _ => by simp
  | c :: t, r, pat, hne, h => by
    obtain ⟨p, ps, rfl⟩ : ∃ p ps, pat = p :: ps := by
      cases pat with
      | nil => exact absurd rfl hne
      | cons a b => exact ⟨a, b, rfl⟩
    have hc : c ≠ p := by simpa using h c (by simp)
    have hp : listPrefixEq (p :: ps) (c :: (t ++ r)) = false := by
      have hpc : ¬p = c := fun he => hc he.symm
      simp [listPrefixEq, hpc]
    rw [List.cons_append, strstr_cons_of_not hp]
    exact strstr_skip_head t r (p :: ps) hne (fun x hx => h x (List.mem_cons_of_mem _ hx))

theorem strchr_self (r : List Char) (ch : Char) : strchr (ch :: r) ch = some (ch :: r) := by
  simp [strchr]

theorem strchr_skip : ∀ (l r : List Char) (ch : Char),
    (∀ c ∈ l, c ≠ ch) → strchr (l ++ r) ch = strchr r ch
  | [], r, ch, _ => by simp
  | c :: t, r, ch, h => by
    rw [List.cons_append, strchr, if_neg (h c (by simp))]
    exact strchr_skip t r ch (fun x hx => h x (List.mem_cons_of_mem _ hx))


theorem intToDec_chars (z : Int) : ∀ c ∈ intToDec z, c = '-' ∨ c.isDigit = true := by
  intro c hc
  rw [intToDec] at hc
  split at hc
  · rcases List.mem_cons.1 hc with h | h
    · exact Or.inl h
    · exact Or.inr (natToDec_digits _ c h)
  · exact Or.inr (natToDec_digits _ c hc)

theorem intToDec_no_quote (z : Int) : ∀ c ∈ intToDec z, c ≠ '\"' := by
  intro c hc
  rcases intToDec_chars z c hc with h | h
  · subst h; decide
  · exact ne_of_isDigit h _ (by decide)

theorem intToDec_head (z : Int) :
    ∃ c cs, intToDec z = c :: cs ∧ (c = '-' ∨ c.isDigit = true) := by
  rcases lt_or_ge z 0 with hz | hz
  · exact ⟨'-', natToDec z.natAbs, by rw [intToDec, if_pos hz], Or.inl rfl⟩
  · obtain ⟨c, cs, hcc⟩ : ∃ c cs, natToDec z.toNat = c :: cs := by
      cases h : natToDec z.toNat with
      | nil => exact absurd h (natToDec_ne_nil _)
      | cons a t => exact ⟨a, t, rfl⟩
    refine ⟨c, cs, by rw [intToDec, if_neg (by omega), hcc], Or.inr ?_⟩
    exact natToDec_digits _ c (by rw [hcc]; simp)

theorem renderConfig_mode (z : Int) :
    json_find_str_value (renderConfig z) modeKey = some everyoneL := by
  simp +decide [renderConfig, cfgSeg1, cfgSeg2, cfgSeg3, cfgSeg4, cfgSeg5, modeKey, pidKey,
    contactsKey, everyoneL, json_find_str_value, strstr, listPrefixEq, strchr, isSpaceC]

theorem renderConfig_pid (z : Int) :
    json_find_ll_value (renderConfig z) pidKey = z := by
  have hr : renderConfig z =
      (cfgSeg1 ++ modeKey ++ cfgSeg2) ++
        (pidKey ++ (cfgSeg3 ++ (intToDec z ++ (cfgSeg4 ++ (contactsKey ++ cfgSeg5))))) := by
    simp [renderConfig, List.append_assoc]
  have h1 : strstr (renderConfig z) pidKey
      = some (pidKey ++ (cfgSeg3 ++ (intToDec z ++ (cfgSeg4 ++ (contactsKey ++ cfgSeg5))))) := by
    rw [hr, strstr_skip_mis _ _ _ (by decide), strstr_here (listPrefixEq_self_append _ _)]
  have h2 : strchr (pidKey ++ (cfgSeg3 ++ (intToDec z ++ (cfgSeg4 ++ (contactsKey ++ cfgSeg5))))) ':'
      = some (':' :: (' ' :: (intToDec z ++ (cfgSeg4 ++ (contactsKey ++ cfgSeg5))))) := by
    rw [strchr_skip _ _ _ (by decide)]
    exact strchr_self _ _
  obtain ⟨c, cs, hic, hcp⟩ := intToDec_head z
  have hpc : (decide (c = ':') || isSpaceC c) = false := by
    rcases hcp with h | h
    · subst h; decide
    · simp [ne_of_isDigit h ':' (by decide), isSpaceC_of_isDigit h]
  have hd : List.dropWhile (fun x => decide (x = ':') || isSpaceC x)
      (':' :: (' ' :: (intToDec z ++ (cfgSeg4 ++ (contactsKey ++ cfgSeg5)))))
      = intToDec z ++ (cfgSeg4 ++ (contactsKey ++ cfgSeg5)) := by
    rw [List.dropWhile_cons, if_pos (by decide), List.dropWhile_cons, if_pos (by decide),
      hic, List.cons_append, List.dropWhile_cons, if_neg (by simp [hpc]), ← List.cons_append,
      ← hic]
  simp only [json_find_ll_value, h1, h2, hd]
  exact strtollC_intToDec z _ (by decide)

theorem renderConfig_contacts (z x : Int) :
    json_contains_ll_in_array (renderConfig z) contactsKey x = false := by
  have hr : renderConfig z =
      (cfgSeg1 ++ modeKey ++ cfgSeg2 ++ pidKey ++ cfgSeg3) ++
        (intToDec z ++ (cfgSeg4 ++ (contactsKey ++ cfgSeg5))) := by
    simp [renderConfig, List.append_assoc]
  have h1 : strstr (renderConfig z) contactsKey = some (contactsKey ++ cfgSeg5) := by
    rw [hr, strstr_skip_mis _ _ _ (by decide),
      strstr_skip_head _ _ _ (by decide)
        (fun c hc => by
          rw [show contactsKey.headD ' ' = '\"' from rfl]
          exact intToDec_no_quote z c hc)]
    decide
  simp only [json_contains_ll_in_array, h1]
  rfl

/-! ## The claims -/

/-- Claim C1: for every policy mode other than EVERYONE (OFF, PERSONAL,
CONTACTS_ONLY, and any unrecognized mode string, all compared
case-insensitively), if identity resolution yields unknown (0) then
`auth_is_allowed_conn` returns DENY, for every policy document: the
unresolved-identity check denies before the mode table can allow. -/
theorem claim_C1 (st : AuthState) (o : Oracle) (addr : Option (List Char)) (ip : List Char)
    (hmode : strcaseEq st.mode everyoneL = false)
    (hip : remote_ip_to_string addr = some ip)
    (h0 : (resolve_identity st.personalId o ip).uid = 0) :
    (auth_is_allowed_conn st o addr).allowed = false := by
  simp [auth_is_allowed_conn, hmode, hip, h0]

theorem claim_C1_witness :
    (auth_is_allowed_conn (AuthState.mk personalL 42 none)
      (Oracle.mk (fun _ => 0) (fun _ => 0)) (some ("100.64.0.5".toList))).allowed = false :=
  claim_C1 (AuthState.mk personalL 42 none) (Oracle.mk (fun _ => 0) (fun _ => 0))
    (some ("100.64.0.5".toList)) ("100.64.0.5".toList) (by decide) (by decide) (by decide)

/-- Claim C2: when the current mode is EVERYONE (case-insensitively),
`auth_is_allowed_conn` returns ALLOW for every peer address and every oracle;
and when every oracle query fails (returns 0), the reported resolved identity
is unknown (0). -/
theorem claim_C2 (st : AuthState) (o : Oracle) (addr : Option (List Char))
    (hmode : strcaseEq st.mode everyoneL = true) :
    (auth_is_allowed_conn st o addr).allowed = true ∧
      ((∀ ip, o.whois ip = 0) → (∀ ip, o.statusByIp ip = 0) →
        (auth_is_allowed_conn st o addr).outUserId = 0) := by
  cases h : remote_ip_to_string addr with
  | none => simp [auth_is_allowed_conn, hmode, h]
  | some ip =>
    refine ⟨by simp [auth_is_allowed_conn, hmode, h], fun hw hs => ?_⟩
    by_cases he : ip = [] <;>
      simp [auth_is_allowed_conn, hmode, h, resolve_remote,
        tailscale_user_id_for_ip, tailscale_user_id_from_status_by_ip, he, hw, hs]

theorem claim_C2_witness :
    (auth_is_allowed_conn (AuthState.mk everyoneL 42 none)
      (Oracle.mk (fun _ => 0) (fun _ => 0)) (some ("100.64.0.5".toList))).allowed = true ∧
    (auth_is_allowed_conn (AuthState.mk everyoneL 42 none)
      (Oracle.mk (fun _ => 0) (fun _ => 0)) (some ("100.64.0.5".toList))).outUserId = 0 :=
  ⟨(claim_C2 (AuthState.mk everyoneL 42 none) (Oracle.mk (fun _ => 0) (fun _ => 0))
      (some ("100.64.0.5".toList)) (by decide)).1,
   (claim_C2 (AuthState.mk everyoneL 42 none) (Oracle.mk (fun _ => 0) (fun _ => 0))
      (some ("100.64.0.5".toList)) (by decide)).2 (fun _ => rfl) (fun _ => rfl)⟩

/-- Claim C3 fails on the code: there is no colon-based rejection in
`auth_module.c`.  At the colon-containing, non-loopback address `fe80::2`,
with an oracle whose who-is query answers 7, the resolver invokes the who-is
query and returns 7, not unknown. -/
theorem claim_C3_counterexample :
    (':' ∈ ("fe80::2".toList)) ∧
    (resolve_identity 42 (Oracle.mk (fun _ => 7) (fun _ => 0)) ("fe80::2".toList)).uid = 7 ∧
    (resolve_identity 42 (Oracle.mk (fun _ => 7) (fun _ => 0))
      ("fe80::2".toList)).whoisInvoked = true :=
  ⟨by decide, rfl, rfl⟩

/-- Claim C3 as amended: a colon-containing peer address gets no special
treatment.  If it matches the loopback test (`::1`, or a colon address with
prefix `127.`) it resolves to the owner identity with no oracle query;
otherwise it is resolved through the oracle chain like any other address, and
in particular the who-is query is invoked. -/
theorem claim_C3_amended (pid : Int) (o : Oracle) (ip : List Char) (hc : ':' ∈ ip) :
    (is_loopback_ip_str ip = true →
      resolve_identity pid o ip = Resolution.mk pid false false) ∧
    (is_loopback_ip_str ip = false →
      resolve_identity pid o ip = resolve_remote o ip ∧
      (resolve_identity pid o ip).whoisInvoked = true) := by
  have hne : ip ≠ [] := by rintro rfl; simp at hc
  constructor
  · intro hlb; simp [resolve_identity, hlb]
  · intro hlb
    refine ⟨by simp [resolve_identity, hlb], ?_⟩
    by_cases hz : o.whois ip = 0 <;>
      simp [resolve_identity, hlb, resolve_remote, tailscale_user_id_for_ip,
        tailscale_user_id_from_status_by_ip, hne, hz]

theorem claim_C3_amended_witness :
    (resolve_identity 42 (Oracle.mk (fun _ => 7) (fun _ => 0))
      ("fe80::2".toList)).whoisInvoked = true :=
  ((claim_C3_amended 42 (Oracle.mk (fun _ => 7) (fun _ => 0)) ("fe80::2".toList)
      (by decide)).2 (by decide)).2

/-- Claim C4 fails on the code for mode EVERYONE: on the loopback peer
`127.0.0.1`, with owner identity 42 cached and an oracle whose who-is query
answers 7, the EVERYONE fast path still invokes the who-is query and reports
identity 7 rather than the owner's 42. -/
theorem claim_C4_counterexample :
    is_loopback_ip_str ("127.0.0.1".toList) = true ∧
    (auth_is_allowed_conn (AuthState.mk everyoneL 42 none)
      (Oracle.mk (fun _ => 7) (fun _ => 0)) (some ("127.0.0.1".toList))).whoisInvoked = true ∧
    (auth_is_allowed_conn (AuthState.mk everyoneL 42 none)
      (Oracle.mk (fun _ => 7) (fun _ => 0)) (some ("127.0.0.1".toList))).outUserId = 7 :=
  ⟨by decide, rfl, rfl⟩

/-- Claim C4 as amended: under every mode other than EVERYONE, a loopback
peer address resolves to the owner identity when it is known and to unknown
(0) otherwise (the reported id is exactly the cached owner id), and neither
remote-lookup oracle query is invoked. -/
theorem claim_C4_amended (st : AuthState) (o : Oracle) (addr : Option (List Char))
    (ip : List Char)
    (hmode : strcaseEq st.mode everyoneL = false)
    (hip : remote_ip_to_string addr = some ip)
    (hlb : is_loopback_ip_str ip = true) :
    (auth_is_allowed_conn st o addr).outUserId = st.personalId ∧
    (auth_is_allowed_conn st o addr).whoisInvoked = false ∧
    (auth_is_allowed_conn st o addr).statusInvoked = false := by
  by_cases hp : st.personalId = 0 <;>
    simp [auth_is_allowed_conn, hmode, hip, resolve_identity, hlb, hp]

/-- Claim C5: under mode CONTACTS_ONLY a resolved (non-zero) identity is
allowed exactly when it equals the owner identity or the contacts array of
the policy document contains it, and the unknown identity (0) is always
denied.  (Membership in `contactIdentities` is what the module's own array
scan `json_contains_ll_in_array` reports on the cached document.) -/
theorem claim_C5 (doc : List Char) (pid uid : Int) (h : uid ≠ 0) :
    is_allowed_user_id (AuthState.mk contactsOnlyL pid (some doc)) uid
      = (decide (uid = pid) || json_contains_ll_in_array doc contactsKey uid) ∧
    is_allowed_user_id (AuthState.mk contactsOnlyL pid (some doc)) 0 = false := by
  constructor
  · by_cases he : uid = pid
    · subst he
      have hp : uid ≠ 0 := h
      simp [is_allowed_user_id, show strcaseEq contactsOnlyL everyoneL = false from rfl,
        show strcaseEq contactsOnlyL offL = false from rfl,
        show strcaseEq contactsOnlyL personalL = false from rfl,
        show strcaseEq contactsOnlyL contactsOnlyL = true from rfl, h, hp]
    · simp [is_allowed_user_id, show strcaseEq contactsOnlyL everyoneL = false from rfl,
        show strcaseEq contactsOnlyL offL = false from rfl,
        show strcaseEq contactsOnlyL personalL = false from rfl,
        show strcaseEq contactsOnlyL contactsOnlyL = true from rfl, h, he]
  · simp [is_allowed_user_id, show strcaseEq contactsOnlyL everyoneL = false from rfl,
      show strcaseEq contactsOnlyL offL = false from rfl,
      show strcaseEq contactsOnlyL personalL = false from rfl,
      show strcaseEq contactsOnlyL contactsOnlyL = true from rfl]

theorem claim_C5_witness :
    is_allowed_user_id (AuthState.mk contactsOnlyL 42
      (some ("\x7b \"mode\": \"CONTACTS_ONLY\", \"personal_user_id\": 42, \"contacts_user_ids\": [7, 9] \x7d".toList))) 7 = true ∧
    is_allowed_user_id (AuthState.mk contactsOnlyL 42
      (some ("\x7b \"mode\": \"CONTACTS_ONLY\", \"personal_user_id\": 42, \"contacts_user_ids\": [7, 9] \x7d".toList))) 5 = false :=
  ⟨((claim_C5 ("\x7b \"mode\": \"CONTACTS_ONLY\", \"personal_user_id\": 42, \"contacts_user_ids\": [7, 9] \x7d".toList)
      42 7 (by decide)).1).trans (by decide),
   ((claim_C5 ("\x7b \"mode\": \"CONTACTS_ONLY\", \"personal_user_id\": 42, \"contacts_user_ids\": [7, 9] \x7d".toList)
      42 5 (by decide)).1).trans (by decide)⟩

/-- Claim C6: under mode PERSONAL a resolved (non-zero) identity is allowed
exactly when it equals the owner identity, and the unknown identity (0) is
always denied — for every cached document and every owner identity. -/
theorem claim_C6 (cfg : Option (List Char)) (pid uid : Int) (h : uid ≠ 0) :
    is_allowed_user_id (AuthState.mk personalL pid cfg) uid = decide (uid = pid) ∧
    is_allowed_user_id (AuthState.mk personalL pid cfg) 0 = false := by
  constructor
  · by_cases he : uid = pid
    · subst he
      have hp : uid ≠ 0 := h
      simp [is_allowed_user_id, show strcaseEq personalL everyoneL = false from rfl,
        show strcaseEq personalL offL = false from rfl,
        show strcaseEq personalL personalL = true from rfl, h, hp]
    · simp [is_allowed_user_id, show strcaseEq personalL everyoneL = false from rfl,
        show strcaseEq personalL offL = false from rfl,
        show strcaseEq personalL personalL = true from rfl, he]
  · simp [is_allowed_user_id, show strcaseEq personalL everyoneL = false from rfl,
      show strcaseEq personalL offL = false from rfl,
      show strcaseEq personalL personalL = true from rfl]

theorem claim_C6_witness :
    is_allowed_user_id (AuthState.mk personalL 42 none) 42 = true ∧
    is_allowed_user_id (AuthState.mk personalL 42 none) 7 = false :=
  ⟨((claim_C6 none 42 42 (by decide)).1).trans (by decide),
   ((claim_C6 none 42 7 (by decide)).1).trans (by decide)⟩

/-- Claim C7: under mode OFF, and under every mode string that matches none
of EVERYONE, OFF, PERSONAL, CONTACTS_ONLY case-insensitively,
`auth_is_allowed_conn` returns DENY for every peer address, every oracle and
every policy-document content. -/
theorem claim_C7 (st : AuthState) (o : Oracle) (addr : Option (List Char))
    (h : strcaseEq st.mode offL = true ∨
      (strcaseEq st.mode everyoneL = false ∧ strcaseEq st.mode offL = false ∧
       strcaseEq st.mode personalL = false ∧ strcaseEq st.mode contactsOnlyL = false)) :
    (auth_is_allowed_conn st o addr).allowed = false := by
  have hEV : strcaseEq st.mode everyoneL = false := by
    rcases h with hoff | hn
    · exact (strcaseEq_off_excludes hoff).1
    · exact hn.1
  cases hip : remote_ip_to_string addr with
  | none => simp [auth_is_allowed_conn, hEV, hip]
  | some ip =>
    by_cases hz : (resolve_identity st.personalId o ip).uid = 0
    · simp [auth_is_allowed_conn, hEV, hip, hz]
    · simp [auth_is_allowed_conn, hEV, hip, hz, is_allowed_user_id_denies st h]

theorem claim_C7_witness :
    (auth_is_allowed_conn (AuthState.mk ("off".toList) 42 none)
      (Oracle.mk (fun _ => 42) (fun _ => 42)) (some ("100.64.0.5".toList))).allowed = false :=
  claim_C7 (AuthState.mk ("off".toList) 42 none) (Oracle.mk (fun _ => 42) (fun _ => 42))
    (some ("100.64.0.5".toList)) (Or.inl (by decide))

/-- Claim C8: policy-store initialization never fails its caller.
`auth_init` returns success for every environment, and each of the claim's
failure scenarios ends in the usable in-memory default policy
`mode = EVERYONE, ownerIdentity = 0`:
  - every outright `config_load_or_create` failure (path undeterminable, file
    missing and uncreatable, or the fresh file unreadable after writing),
    where `auth_init` forces the default;
  - a missing/unreadable policy file together with a failed oracle
    self-lookup, whether or not the replacement file can then be created
    (`config_load_or_create` itself may report success here);
  - an existing but unparsable policy file — one in which the module's own
    scanners find no `"mode"` value and no `"personal_user_id"` number —
    loaded over the pristine globals (`g_mode = "EVERYONE"`), where the load
    "succeeds" but keeps the default mode and extracts owner id 0. -/
theorem claim_C8 (env : Env) (st : AuthState) :
    (auth_init env st).1 = true ∧
    ((config_load_or_create env st).1 = false →
      (auth_init env st).2.mode = everyoneL ∧ (auth_init env st).2.personalId = 0) ∧
    (env.existingFile = none → self_lookup_uid env = 0 →
      (auth_init env st).2.mode = everyoneL ∧ (auth_init env st).2.personalId = 0) ∧
    (∀ s, env.existingFile = some s → json_find_str_value s modeKey = none →
      json_find_ll_value s pidKey = 0 → st.mode = everyoneL →
      (auth_init env st).2.mode = everyoneL ∧ (auth_init env st).2.personalId = 0) := by
  refine ⟨?_, fun hfail => by simp [auth_init, hfail], fun hfile hself => ?_, ?_⟩
  · by_cases h : (config_load_or_create env st).1 = true <;> simp [auth_init, h]
  · by_cases hp : env.pathOk = false
    · simp [auth_init, config_load_or_create, hp]
    · by_cases hw : env.writeOk = false
      · simp [auth_init, config_load_or_create, hp, hfile, hw]
      · by_cases hr : env.rereadOk = true <;>
          simp [auth_init, config_load_or_create, hp, hfile, hw, hr, hself]
  · intro s hfile hm hpid hst
    by_cases hp : env.pathOk = false
    · simp [auth_init, config_load_or_create, hp]
    · simp [auth_init, config_load_or_create, hp, hfile, hm, hpid, hst]

theorem claim_C8_witness :
    ((auth_init (Env.mk false none none (Oracle.mk (fun _ => 0) (fun _ => 0)) false false)
        initState).1 = true ∧
      (auth_init (Env.mk false none none (Oracle.mk (fun _ => 0) (fun _ => 0)) false false)
        initState).2.mode = everyoneL ∧
      (auth_init (Env.mk false none none (Oracle.mk (fun _ => 0) (fun _ => 0)) false false)
        initState).2.personalId = 0) ∧
    ((auth_init (Env.mk true none none (Oracle.mk (fun _ => 0) (fun _ => 0)) true true)
        initState).2.mode = everyoneL ∧
      (auth_init (Env.mk true none none (Oracle.mk (fun _ => 0) (fun _ => 0)) true true)
        initState).2.personalId = 0) ∧
    ((auth_init (Env.mk true (some ("corrupt policy file <<>>".toList)) none
        (Oracle.mk (fun _ => 0) (fun _ => 0)) true true) initState).2.mode = everyoneL ∧
      (auth_init (Env.mk true (some ("corrupt policy file <<>>".toList)) none
        (Oracle.mk (fun _ => 0) (fun _ => 0)) true true) initState).2.personalId = 0) :=
  ⟨⟨(claim_C8 (Env.mk false none none (Oracle.mk (fun _ => 0) (fun _ => 0)) false false)
        initState).1,
    (claim_C8 (Env.mk false none none (Oracle.mk (fun _ => 0) (fun _ => 0)) false false)
        initState).2.1 (by decide)⟩,
   (claim_C8 (Env.mk true none none (Oracle.mk (fun _ => 0) (fun _ => 0)) true true)
        initState).2.2.1 rfl rfl,
   (claim_C8 (Env.mk true (some ("corrupt policy file <<>>".toList)) none
        (Oracle.mk (fun _ => 0) (fun _ => 0)) true true) initState).2.2.2
      ("corrupt policy file <<>>".toList) rfl (by decide) (by decide) rfl⟩

/-- Claim C10: after `auth_init`, whenever the cached mode is anything other
than the default literal `EVERYONE` — in particular a restrictive mode such
as CONTACTS_ONLY loaded from a configuration file — the cached raw policy
document is non-null, so the contacts-array scan of the decision function
never reads a null document.  (Every path that fails to load a file forces
mode EVERYONE.) -/
theorem claim_C10 (env : Env) (st : AuthState)
    (h : (auth_init env st).2.mode ≠ everyoneL) :
    (auth_init env st).2.cfgJson.isSome = true := by
  by_cases hp : env.pathOk = false
  · exfalso
    apply h
    simp [auth_init, config_load_or_create, hp]
  · cases hf : env.existingFile with
    | some s =>
      simp [auth_init, config_load_or_create, hp, hf]
    | none =>
      by_cases hw : env.writeOk = false
      · exfalso
        apply h
        simp [auth_init, config_load_or_create, hp, hf, hw]
      · by_cases hr : env.rereadOk = true
        · simp [auth_init, config_load_or_create, hp, hf, hw, hr]
        · exfalso
          apply h
          simp [auth_init, config_load_or_create, hp, hf, hw, hr]

theorem claim_C10_witness :
    (auth_init (Env.mk true
      (some ("\x7b \"mode\": \"CONTACTS_ONLY\", \"personal_user_id\": 42, \"contacts_user_ids\": [7, 9] \x7d".toList))
      none (Oracle.mk (fun _ => 0) (fun _ => 0)) true true) initState).2.cfgJson.isSome = true :=
  claim_C10 (Env.mk true
    (some ("\x7b \"mode\": \"CONTACTS_ONLY\", \"personal_user_id\": 42, \"contacts_user_ids\": [7, 9] \x7d".toList))
    none (Oracle.mk (fun _ => 0) (fun _ => 0)) true true) initState (by decide)

theorem claim_C4_amended_witness :
    (auth_is_allowed_conn (AuthState.mk personalL 42 none)
      (Oracle.mk (fun _ => 7) (fun _ => 9)) (some ("127.0.0.1".toList))).outUserId = 42 :=
  (claim_C4_amended (AuthState.mk personalL 42 none)
    (Oracle.mk (fun _ => 7) (fun _ => 9)) (some ("127.0.0.1".toList)) ("127.0.0.1".toList)
    (by decide) (by decide) (by decide)).1

/-- Claim C9: when no policy file exists and load-or-create synthesizes one
(path determinable, write and re-read succeed), the cached document is exactly
the rendered default config for the self-lookup's id, and running the module's
own field extraction over that document yields mode `EVERYONE`, owner id equal
to whatever the self-lookup produced (0 included, when it failed), and a
contacts array containing no integer at all. -/
theorem claim_C9 (env : Env) (st : AuthState)
    (hpath : env.pathOk = true) (hfile : env.existingFile = none)
    (hwrite : env.writeOk = true) (hreread : env.rereadOk = true) :
    (config_load_or_create env st).2.cfgJson = some (renderConfig (self_lookup_uid env)) ∧
    json_find_str_value (renderConfig (self_lookup_uid env)) modeKey = some everyoneL ∧
    json_find_ll_value (renderConfig (self_lookup_uid env)) pidKey = self_lookup_uid env ∧
    ∀ x : Int,
      json_contains_ll_in_array (renderConfig (self_lookup_uid env)) contactsKey x = false := by
  refine ⟨?_, renderConfig_mode _, renderConfig_pid _, fun x => renderConfig_contacts _ x⟩
  simp [config_load_or_create, hpath, hfile, hwrite, hreread]

theorem claim_C9_witness :
    (config_load_or_create
        (Env.mk true none none (Oracle.mk (fun _ => 0) (fun _ => 0)) true true)
        initState).2.cfgJson = some (renderConfig 0) ∧
    json_find_str_value (renderConfig 0) modeKey = some everyoneL ∧
    json_find_ll_value (renderConfig 0) pidKey = 0 ∧
    json_contains_ll_in_array (renderConfig 0) contactsKey 5 = false :=
  ⟨(claim_C9 (Env.mk true none none (Oracle.mk (fun _ => 0) (fun _ => 0)) true true)
      initState rfl rfl rfl rfl).1,
   (claim_C9 (Env.mk true none none (Oracle.mk (fun _ => 0) (fun _ => 0)) true true)
      initState rfl rfl rfl rfl).2.1,
   (claim_C9 (Env.mk true none none (Oracle.mk (fun _ => 0) (fun _ => 0)) true true)
      initState rfl rfl rfl rfl).2.2.1,
   (claim_C9 (Env.mk true none none (Oracle.mk (fun _ => 0) (fun _ => 0)) true true)
      initState rfl rfl rfl rfl).2.2.2 5⟩

end Spacedrop
